import Mathlib

/-!
# mini-linkedin front-end: session store and feed state

A shallow embedding of the stateful parts of

* `frontend/src/contexts/AuthContext.js` (session store),
* `frontend/src/pages/Home.js` (feed state controller),
* `frontend/src/components/CreatePostModal.js` (post creation form),
* `frontend/src/pages/Register.js` (registration form).

Every `async` handler is a sequence of reads and writes of component state
around one awaited remote call.  A handler is embedded as a state-passing
computation `Eff σ α` that may throw; the outcome of each remote call is
supplied by an environment record, and `try / catch / finally` are the
combinators `Eff.tryCatch` and `Eff.tryFinally`.  State writes made before a
throw are kept, as they are in JavaScript.
-/

namespace MiniLinkedin

/-! ## JavaScript values -/

/-- A thrown JavaScript value, as caught by a `catch (error)` clause. -/
structure JsError where
  message : String
  status : Option Nat := none
  deriving DecidableEq, Repr

/-- The value returned by `handleGenericError` (`utils/errorHandler`, not part of
the sources at hand): the handlers accept either a string or an object with a
`message` property. -/
inductive ErrorResult where
  | str (s : String)
  | obj (message : String)
  deriving DecidableEq, Repr

/-- The expression
`typeof errorResult === 'string' ? errorResult : errorResult.message`. -/
def ErrorResult.toMessage : ErrorResult → String
  | .str s => s
  | .obj m => m

/-- The expression `value || fallback` for an optional string property: an absent
property (`undefined`) and the empty string are both falsy. -/
def orElseStr (value : Option String) (fallback : String) : String :=
  match value with
  | some m => if m = "" then fallback else m
  | none => fallback

/-- Truthiness of an optional string, as in `if (token)`. -/
def truthyStr (value : Option String) : Bool :=
  match value with
  | some m => m ≠ ""
  | none => false

/-! ## Computations with state and exceptions -/

deriving instance DecidableEq for Except

/-- A computation over component state `σ` that returns an `α` or throws. -/
def Eff (σ : Type) (α : Type) : Type := σ → σ × Except JsError α

namespace Eff

variable {σ α β : Type}

/-- Normal completion with a value. -/
def ret (a : α) : Eff σ α := fun s => (s, .ok a)

/-- Sequencing: a throw in the first part skips the second and keeps the state. -/
def andThen (m : Eff σ α) (f : α → Eff σ β) : Eff σ β := fun s =>
  match m s with
  | (s1, .ok a) => f a s1
  | (s1, .error e) => (s1, .error e)

instance : Monad (Eff σ) where
  pure := ret
  bind := andThen

/-- The statement `throw e`, and the rejection of an awaited promise. -/
def throw (e : JsError) : Eff σ α := fun s => (s, .error e)

/-- An awaited remote call whose outcome is already determined. -/
def await (r : Except JsError α) : Eff σ α := fun s => (s, r)

/-- A state write such as `setError('')`. -/
def modify (f : σ → σ) : Eff σ Unit := fun s => (f s, .ok ())

/-- A state read. -/
def read : Eff σ σ := fun s => (s, .ok s)

/-- The statement `try { body } catch (error) { handler }`. -/
def tryCatch (body : Eff σ α) (handler : JsError → Eff σ α) : Eff σ α := fun s =>
  match body s with
  | (s1, .ok a) => (s1, .ok a)
  | (s1, .error e) => handler e s1

/-- The statement `try { body } finally { fin }` where `fin` does not return. -/
def tryFinally (body : Eff σ α) (fin : Eff σ Unit) : Eff σ α := fun s =>
  match body s with
  | (s1, r) =>
    match fin s1 with
    | (s2, .ok _) => (s2, r)
    | (s2, .error e) => (s2, .error e)

end Eff

/-! ## Feed state controller (`pages/Home.js`) -/

/-- The `author` reference of a post. -/
structure Author where
  _id : String
  name : String
  deriving DecidableEq, Repr

/-- A post record as delivered by the server.  `author` and `likes` are read
with plain property access in `fetchStats` and with `?.` in the view, so both
may be missing. -/
structure Post where
  _id : String
  title : String
  content : String
  author : Option Author
  likes : Option (List String)
  deriving DecidableEq, Repr

/-- The `stats` state of `Home`. -/
structure Stats where
  totalPosts : Nat
  totalUsers : Nat
  totalLikes : Nat
  deriving DecidableEq, Repr

/-- The `useState` cells of `Home`. -/
structure HomeState where
  posts : List Post := []
  loading : Bool := true
  error : String := ""
  showCreateModal : Bool := false
  stats : Stats := ⟨0, 0, 0⟩
  deriving DecidableEq, Repr

/-- Body of the like and create endpoints: `{success, post}` with a truthy
`success`, or `{success: false, message}` where `message` may be missing. -/
inductive PostResponse where
  | success (post : Post)
  | failure (message : Option String)
  deriving DecidableEq, Repr

/-- Body of the delete endpoint: `{success}` or `{success: false, message}`. -/
inductive DeleteResponse where
  | success
  | failure (message : Option String)
  deriving DecidableEq, Repr

/-- The collaborators of `Home`: the remote API client (`utils/api`), the error
normaliser (`utils/errorHandler`) and `window.confirm`.  None of them is part of
the sources at hand, so each is a parameter. -/
structure HomeEnv where
  getPosts : Except JsError (List Post)
  putLike : String → Except JsError PostResponse
  deletePost : String → Except JsError DeleteResponse
  confirm : Bool
  handleGenericError : JsError → ErrorResult

/-- A `TypeError` for a property read on `undefined`. -/
def typeError (what : String) : JsError := ⟨what, none⟩

/-- The constructor `new Set(iterable)`: values are kept in insertion order and a
value already present is not added again. -/
def jsSet (xs : List String) : List String :=
  xs.foldl (fun acc x => if x ∈ acc then acc else acc ++ [x]) []

/-- The reducer `(sum, post) => sum + post.likes.length` applied from the left,
starting at `sum`; it throws on a post without `likes`. -/
def sumLikes : Nat → List Post → Except JsError Nat
  | sum, [] => .ok sum
  | sum, post :: rest =>
    match post.likes with
    | some likes => sumLikes (sum + likes.length) rest
    | none => .error (typeError "post.likes is undefined")

/-- The call `allPosts.map(post => post.author._id)`; it throws on a post without
`author`. -/
def authorIds : List Post → Except JsError (List String)
  | [] => .ok []
  | post :: rest =>
    match post.author with
    | some author =>
      match authorIds rest with
      | .ok ids => .ok (author._id :: ids)
      | .error e => .error e
    | none => .error (typeError "post.author is undefined")

/-- Home.js lines 41-60. -/
def fetchStats (env : HomeEnv) : Eff HomeState Unit :=
  Eff.tryCatch
    (do
      let allPosts ← Eff.await env.getPosts
      let totalLikes ← Eff.await (sumLikes 0 allPosts)
      let ids ← Eff.await (authorIds allPosts)
      Eff.modify fun s => { s with stats :=
        { totalPosts := allPosts.length
          totalUsers := (jsSet ids).length
          totalLikes := totalLikes } })
    (fun _error =>
      Eff.modify fun s => { s with stats :=
        { totalPosts := 0, totalUsers := 0, totalLikes := 0 } })

/-- Home.js lines 62-81.  `posts` is the list of the render that created the
handler. -/
def handleLike (env : HomeEnv) (postId : String) : Eff HomeState Unit := do
  let posts := (← Eff.read).posts
  Eff.tryCatch
    (do
      Eff.modify fun s => { s with error := "" }
      let response ← Eff.await (env.putLike postId)
      match response with
      | .success likedPost =>
        Eff.modify fun s =>
          { s with posts := posts.map (fun post => if post._id = postId then likedPost else post) }
        fetchStats env
      | .failure message =>
        Eff.modify fun s => { s with error := orElseStr message "Failed to like post." })
    (fun error => do
      let errorResult := env.handleGenericError error
      let errorMessage := errorResult.toMessage
      Eff.modify fun s => { s with error := errorMessage })

/-- Home.js lines 83-102. -/
def handleDeletePost (env : HomeEnv) (postId : String) : Eff HomeState Unit := do
  let posts := (← Eff.read).posts
  if !env.confirm then
    return
  Eff.tryCatch
    (do
      Eff.modify fun s => { s with error := "" }
      let response ← Eff.await (env.deletePost postId)
      match response with
      | .success =>
        Eff.modify fun s => { s with posts := posts.filter (fun post => post._id ≠ postId) }
        fetchStats env
      | .failure message =>
        Eff.modify fun s => { s with error := orElseStr message "Failed to delete post." })
    (fun error => do
      let errorResult := env.handleGenericError error
      let errorMessage := errorResult.toMessage
      Eff.modify fun s => { s with error := errorMessage })

/-- Home.js lines 104-107. -/
def handlePostCreated (env : HomeEnv) (newPost : Post) : Eff HomeState Unit := do
  let posts := (← Eff.read).posts
  Eff.modify fun s => { s with posts := newPost :: posts }
  fetchStats env

/-! ## Session store (`contexts/AuthContext.js`) -/

/-- The `user` record of a session. -/
structure User where
  _id : String
  name : String
  email : String
  bio : String
  deriving DecidableEq, Repr

/-- The session: the `token` item of `localStorage` and the `useState` cells of
`AuthProvider`. -/
structure AuthState where
  token : Option String := none
  user : Option User := none
  loading : Bool := true
  error : String := ""
  deriving DecidableEq, Repr

/-- Body of `GET /api/auth/me` and of `PUT /api/users/profile`: `{success, user}`
or `{success: false, message}`. -/
inductive UserResponse where
  | success (user : User)
  | failure (message : Option String)
  deriving DecidableEq, Repr

/-- Body of the login and registration endpoints: `{success, token, user}` or
`{success: false, message}`. -/
inductive AuthResponse where
  | success (token : String) (user : User)
  | failure (message : Option String)
  deriving DecidableEq, Repr

/-- The result objects `{ success: true }` and `{ success: false, message }`. -/
structure AuthResult where
  success : Bool
  message : Option String := none
  deriving DecidableEq, Repr

/-- The collaborators of `AuthProvider`: the remote API client and the error
normaliser, both parameters. -/
structure AuthEnv where
  getMe : Except JsError UserResponse
  postLogin : String → String → Except JsError AuthResponse
  postRegister : String → String → String → Except JsError AuthResponse
  putProfile : String → String → Except JsError UserResponse
  handleGenericError : JsError → ErrorResult

/-- The call `localStorage.getItem('token')`. -/
def getToken : Eff AuthState (Option String) := fun s => (s, .ok s.token)

/-- The call `localStorage.setItem('token', token)`. -/
def setToken (token : String) : Eff AuthState Unit :=
  Eff.modify fun s => { s with token := some token }

/-- The call `localStorage.removeItem('token')`. -/
def removeToken : Eff AuthState Unit :=
  Eff.modify fun s => { s with token := none }

/-- The state setter `setUser`. -/
def setUser (user : Option User) : Eff AuthState Unit :=
  Eff.modify fun s => { s with user := user }

/-- The state setter `setLoading`. -/
def setLoading (loading : Bool) : Eff AuthState Unit :=
  Eff.modify fun s => { s with loading := loading }

/-- The state setter `setError`. -/
def setError (error : String) : Eff AuthState Unit :=
  Eff.modify fun s => { s with error := error }

/-- AuthContext.js lines 30-54. -/
def checkAuthStatus (env : AuthEnv) : Eff AuthState Unit :=
  Eff.tryFinally
    (Eff.tryCatch
      (do
        let token ← getToken
        if !truthyStr token then
          setLoading false
          return
        let response ← Eff.await env.getMe
        match response with
        | .success user => setUser (some user)
        | .failure _ =>
          removeToken
          setUser none)
      (fun _error => do
        removeToken
        setUser none))
    (setLoading false)

/-- AuthContext.js lines 21-28: the effect run on mount. -/
def onMount (env : AuthEnv) : Eff AuthState Unit := do
  let token ← getToken
  if truthyStr token then
    checkAuthStatus env
  else
    setLoading false

/-- AuthContext.js lines 56-94. -/
def login (env : AuthEnv) (email password : String) : Eff AuthState AuthResult :=
  Eff.tryFinally
    (Eff.tryCatch
      (do
        setError ""
        setLoading true
        let response ← Eff.await (env.postLogin email password)
        match response with
        | .success token user =>
          setToken token
          setUser (some user)
          setError ""
          return { success := true }
        | .failure message =>
          let errorMessage := orElseStr message "Login failed"
          setError errorMessage
          return { success := false, message := some errorMessage })
      (fun error => do
        let errorResult := env.handleGenericError error
        let errorMessage := errorResult.toMessage
        setError errorMessage
        return { success := false, message := some errorMessage }))
    (setLoading false)

/-- AuthContext.js lines 96-134. -/
def register (env : AuthEnv) (name email password : String) : Eff AuthState AuthResult :=
  Eff.tryFinally
    (Eff.tryCatch
      (do
        setError ""
        setLoading true
        let response ← Eff.await (env.postRegister name email password)
        match response with
        | .success token user =>
          setToken token
          setUser (some user)
          setError ""
          return { success := true }
        | .failure message =>
          let errorMessage := orElseStr message "Registration failed"
          setError errorMessage
          return { success := false, message := some errorMessage })
      (fun error => do
        let errorResult := env.handleGenericError error
        let errorMessage := errorResult.toMessage
        setError errorMessage
        return { success := false, message := some errorMessage }))
    (setLoading false)

/-- AuthContext.js lines 136-140. -/
def logout : Eff AuthState Unit := do
  removeToken
  setUser none
  setError ""

/-- AuthContext.js lines 142-166. -/
def updateProfile (env : AuthEnv) (name bio : String) : Eff AuthState AuthResult :=
  Eff.tryFinally
    (Eff.tryCatch
      (do
        setError ""
        setLoading true
        let response ← Eff.await (env.putProfile name bio)
        match response with
        | .success user =>
          setUser (some user)
          return { success := true }
        | .failure message =>
          let errorMessage := orElseStr message "Profile update failed"
          setError errorMessage
          return { success := false, message := some errorMessage })
      (fun error => do
        let errorResult := env.handleGenericError error
        let errorMessage := errorResult.toMessage
        setError errorMessage
        return { success := false, message := some errorMessage }))
    (setLoading false)

/-! ## Post creation form (`components/CreatePostModal.js`) -/

/-- The characters removed by `String.prototype.trim`: the ECMAScript white space
and line terminator code points. -/
def isJsWhiteSpace (c : Char) : Bool :=
  let n := c.toNat
  n = 0x0009 || n = 0x000A || n = 0x000B || n = 0x000C || n = 0x000D || n = 0x0020 ||
  n = 0x00A0 || n = 0x1680 || (0x2000 ≤ n && n ≤ 0x200A) || n = 0x2028 || n = 0x2029 ||
  n = 0x202F || n = 0x205F || n = 0x3000 || n = 0xFEFF

/-- The method `String.prototype.trim`. -/
def jsTrim (s : String) : String :=
  String.mk ((s.data.dropWhile isJsWhiteSpace).reverse.dropWhile isJsWhiteSpace).reverse

/-- What the form does to the outside: the request it sends and the callbacks
`onClose` and `onPostCreated` it invokes. -/
inductive ModalEvent where
  | apiPost (title content : String)
  | onClose
  | onPostCreated (post : Post)
  deriving DecidableEq, Repr

/-- The `useState` cells of `CreatePostModal`, and the events issued so far (most
recent last). -/
structure ModalState where
  title : String := ""
  content : String := ""
  posting : Bool := false
  error : String := ""
  events : List ModalEvent := []
  deriving DecidableEq, Repr

/-- The collaborators of `CreatePostModal`, both parameters. -/
structure ModalEnv where
  postPosts : String → String → Except JsError PostResponse
  handleGenericError : JsError → ErrorResult

/-- Record an event. -/
def emit (e : ModalEvent) : Eff ModalState Unit :=
  Eff.modify fun s => { s with events := s.events ++ [e] }

/-- The call `api.post('/api/posts', { title, content })`. -/
def apiPostPosts (env : ModalEnv) (title content : String) : Eff ModalState PostResponse := do
  emit (.apiPost title content)
  Eff.await (env.postPosts title content)

/-- CreatePostModal.js lines 12-58. -/
def handleSubmit (env : ModalEnv) : Eff ModalState Unit := do
  let title := (← Eff.read).title
  let content := (← Eff.read).content
  Eff.modify fun s => { s with error := "" }
  if jsTrim title = "" then
    Eff.modify fun s => { s with error := "Please enter a title for your post." }
    return
  if jsTrim content = "" then
    Eff.modify fun s => { s with error := "Please enter some content for your post." }
    return
  Eff.modify fun s => { s with posting := true }
  Eff.tryFinally
    (Eff.tryCatch
      (do
        let response ← apiPostPosts env (jsTrim title) (jsTrim content)
        match response with
        | .success post =>
          Eff.modify fun s => { s with title := "" }
          Eff.modify fun s => { s with content := "" }
          Eff.modify fun s => { s with error := "" }
          emit .onClose
          emit (.onPostCreated post)
        | .failure message =>
          Eff.modify fun s => { s with error := orElseStr message "Failed to create post." })
      (fun error => do
        let errorResult := env.handleGenericError error
        let errorMessage := errorResult.toMessage
        Eff.modify fun s => { s with error := errorMessage }))
    (Eff.modify fun s => { s with posting := false })

/-- Home.js lines 306-310: what `Home` does on the callbacks of the form. -/
def onModalEvent (env : HomeEnv) : ModalEvent → Eff HomeState Unit
  | .apiPost _ _ => pure ()
  | .onClose => Eff.modify fun s => { s with showCreateModal := false }
  | .onPostCreated post => handlePostCreated env post

/-- The feed after the events of one submission, in order. -/
def onModalEvents (env : HomeEnv) : List ModalEvent → Eff HomeState Unit
  | [] => pure ()
  | e :: rest => do
    onModalEvent env e
    onModalEvents env rest

/-- The events issued by one call of `handleSubmit`: those appended to the events
recorded before the call. -/
def submitEvents (env : ModalEnv) (s : ModalState) : List ModalEvent :=
  (handleSubmit env s).1.events.drop s.events.length

/-! ## Registration form (`pages/Register.js`) -/

/-- The property `String.prototype.length`: the number of UTF-16 code units, two
for a code point above `U+FFFF`. -/
def jsLength (s : String) : Nat :=
  (s.data.map fun c => if c.toNat < 0x10000 then 1 else 2).sum

/-- The `formData` state of `Register`. -/
structure FormData where
  name : String := ""
  email : String := ""
  password : String := ""
  confirmPassword : String := ""
  deriving DecidableEq, Repr

/-- What the form does to the outside: the call of `register` of the session
store and the call of `navigate`. -/
inductive RegisterEvent where
  | register (name email password : String)
  | navigate (path : String)
  deriving DecidableEq, Repr

/-- The `useState` cells of `Register`, the session of the `AuthProvider` around
it, and the events issued so far (most recent last).  `error` is `none` after
`setError(undefined)`. -/
structure RegisterState where
  formData : FormData := {}
  loading : Bool := false
  error : Option String := some ""
  auth : AuthState := {}
  events : List RegisterEvent := []
  deriving DecidableEq, Repr

namespace Register

/-- Run an operation of the session store on the session inside the form's
state. -/
def liftAuth {α : Type} (m : Eff AuthState α) : Eff RegisterState α := fun s =>
  match m s.auth with
  | (auth, r) => ({ s with auth := auth }, r)

/-- Record an event. -/
def emit (e : RegisterEvent) : Eff RegisterState Unit :=
  Eff.modify fun s => { s with events := s.events ++ [e] }

/-- The call `register(name, email, password)` of the function obtained from
`useAuth()`. -/
def callRegister (env : AuthEnv) (name email password : String) :
    Eff RegisterState AuthResult := do
  emit (.register name email password)
  liftAuth (MiniLinkedin.register env name email password)

/-- Register.js lines 27-84. -/
def handleSubmit (env : AuthEnv) : Eff RegisterState Unit := do
  let formData := (← Eff.read).formData
  Eff.modify fun s => { s with error := some "" }
  if jsTrim formData.name = "" then
    Eff.modify fun s => { s with error := some "Please enter your full name." }
    return
  if jsLength (jsTrim formData.name) < 2 then
    Eff.modify fun s => { s with error := some "Name must be at least 2 characters long." }
    return
  if jsTrim formData.email = "" then
    Eff.modify fun s => { s with error := some "Please enter your email address." }
    return
  if jsTrim formData.password = "" then
    Eff.modify fun s => { s with error := some "Please enter a password." }
    return
  if jsLength formData.password < 6 then
    Eff.modify fun s => { s with error := some "Password must be at least 6 characters long." }
    return
  if formData.password ≠ formData.confirmPassword then
    Eff.modify fun s => { s with error := some "Passwords do not match." }
    return
  Eff.modify fun s => { s with loading := true }
  Eff.tryFinally
    (Eff.tryCatch
      (do
        let result ← callRegister env (jsTrim formData.name) (jsTrim formData.email)
          formData.password
        if result.success then
          emit (.navigate "/")
        else
          Eff.modify fun s => { s with error := result.message })
      (fun _error =>
        Eff.modify fun s =>
          { s with error := some "An unexpected error occurred. Please try again." }))
    (Eff.modify fun s => { s with loading := false })

/-- The events issued by one call of `handleSubmit`: those appended to the events
recorded before the call. -/
def submitEvents (env : AuthEnv) (s : RegisterState) : List RegisterEvent :=
  (handleSubmit env s).1.events.drop s.events.length

end Register

/-! ## Sample data -/

/-- The three posts of the statistics example: authors `A`, `B`, `A` with one,
two and no likes. -/
def samplePosts : List Post :=
  [ { _id := "p1", title := "First", content := "one", author := some ⟨"A", "Ann"⟩,
      likes := some ["U1"] },
    { _id := "p2", title := "Second", content := "two", author := some ⟨"B", "Bob"⟩,
      likes := some ["U1", "U2"] },
    { _id := "p3", title := "Third", content := "three", author := some ⟨"A", "Ann"⟩,
      likes := some [] } ]

/-- The post `p2` as the server returns it after a like by `U3`. -/
def sampleLikedPost : Post :=
  { _id := "p2", title := "Second", content := "two", author := some ⟨"B", "Bob"⟩,
    likes := some ["U1", "U2", "U3"] }

/-- A feed holding the sample posts. -/
def sampleFeed : HomeState := { posts := samplePosts, loading := false }

/-- A server that delivers the sample posts, accepts likes and refuses to delete
with the message `Not authorized`; the user confirms the dialog. -/
def sampleHomeEnv : HomeEnv :=
  { getPosts := .ok samplePosts
    putLike := fun _ => .ok (.success sampleLikedPost)
    deletePost := fun _ => .ok (.failure (some "Not authorized"))
    confirm := true
    handleGenericError := fun e => .obj e.message }

/-- The same server, except that it refuses to delete with an empty message. -/
def emptyMessageHomeEnv : HomeEnv :=
  { sampleHomeEnv with deletePost := fun _ => .ok (.failure (some "")) }

/-- A user record. -/
def sampleUser : User := { _id := "u1", name := "Ann", email := "ann@example.com", bio := "" }

/-- A second record of the same user, after a profile update. -/
def sampleUpdatedUser : User :=
  { _id := "u1", name := "Ann B", email := "ann@example.com", bio := "hello" }

/-- A session with a signed-in user. -/
def sampleSession : AuthState :=
  { token := some "tok-1", user := some sampleUser, loading := false }

/-- A server that accepts every request. -/
def acceptingAuthEnv : AuthEnv :=
  { getMe := .ok (.success sampleUser)
    postLogin := fun _ _ => .ok (.success "tok-2" sampleUser)
    postRegister := fun _ _ _ => .ok (.success "tok-3" sampleUser)
    putProfile := fun _ _ => .ok (.success sampleUpdatedUser)
    handleGenericError := fun e => .obj e.message }

/-- A server that refuses every request with the message `Invalid credentials`. -/
def refusingAuthEnv : AuthEnv :=
  { getMe := .ok (.failure (some "Invalid credentials"))
    postLogin := fun _ _ => .ok (.failure (some "Invalid credentials"))
    postRegister := fun _ _ _ => .ok (.failure (some "Invalid credentials"))
    putProfile := fun _ _ => .ok (.failure (some "Invalid credentials"))
    handleGenericError := fun e => .obj e.message }

/-- A server that refuses every request with an empty message. -/
def emptyMessageAuthEnv : AuthEnv :=
  { getMe := .ok (.failure (some ""))
    postLogin := fun _ _ => .ok (.failure (some ""))
    postRegister := fun _ _ _ => .ok (.failure (some ""))
    putProfile := fun _ _ => .ok (.failure (some ""))
    handleGenericError := fun e => .obj e.message }

/-- A network that is down: every call throws. -/
def unreachableAuthEnv : AuthEnv :=
  { getMe := .error ⟨"Network Error", none⟩
    postLogin := fun _ _ => .error ⟨"Network Error", none⟩
    postRegister := fun _ _ _ => .error ⟨"Network Error", none⟩
    putProfile := fun _ _ => .error ⟨"Network Error", none⟩
    handleGenericError := fun e => .obj e.message }

/-- A server that stores every post it is sent. -/
def sampleModalEnv : ModalEnv :=
  { postPosts := fun title content =>
      .ok (.success { _id := "p9", title := title, content := content,
                      author := some ⟨"A", "Ann"⟩, likes := some [] })
    handleGenericError := fun e => .obj e.message }

/-- The same server as `sampleHomeEnv`, except that it deletes every post it is
asked to delete. -/
def deletingHomeEnv : HomeEnv :=
  { sampleHomeEnv with deletePost := fun _ => .ok .success }

/-- A post as the server returns it after creation. -/
def sampleCreatedPost : Post :=
  { _id := "p9", title := "Fourth", content := "four", author := some ⟨"A", "Ann"⟩,
    likes := some [] }

/-- A registration form that passes every check; name, email and password are
typed with blanks around them. -/
def sampleForm : FormData :=
  { name := " Ann ", email := " ann@example.com ", password := " secret",
    confirmPassword := " secret" }

/-- The same form with a name of one letter. -/
def sampleShortNameForm : FormData := { sampleForm with name := " A " }

/-! # Theorems -/

/-! ## Unfolding lemmas for `Eff` -/

theorem Eff.pure_apply {σ α : Type} (a : α) (s : σ) : (pure a : Eff σ α) s = (s, .ok a) := rfl

theorem Eff.bind_apply {σ α β : Type} (m : Eff σ α) (f : α → Eff σ β) (s : σ) :
    (m >>= f) s = Eff.andThen m f s := rfl


/-! ## Lemmas on the feed statistics -/

theorem jsSet_foldl_nodup (xs acc : List String) (h : acc.Nodup) :
    (xs.foldl (fun acc x => if x ∈ acc then acc else acc ++ [x]) acc).Nodup := by
  induction xs generalizing acc with
  | nil => simpa using h
  | cons x rest ih =>
    simp only [List.foldl_cons]
    apply ih
    by_cases hx : x ∈ acc
    · simpa [hx] using h
    · simp only [hx, if_false]
      exact List.Nodup.append h (List.nodup_singleton x) (by simpa using hx)

theorem jsSet_foldl_toFinset (xs acc : List String) :
    (xs.foldl (fun acc x => if x ∈ acc then acc else acc ++ [x]) acc).toFinset
      = acc.toFinset ∪ xs.toFinset := by
  induction xs generalizing acc with
  | nil => simp
  | cons x rest ih =>
    simp only [List.foldl_cons]
    rw [ih]
    by_cases hx : x ∈ acc
    · simp only [hx, if_true, List.toFinset_cons]
      ext y
      simp only [Finset.mem_union, List.mem_toFinset, Finset.mem_insert]
      constructor
      · rintro (h | h)
        · exact Or.inl h
        · exact Or.inr (Or.inr h)
      · rintro (h | h | h)
        · exact Or.inl h
        · exact Or.inl (h ▸ hx)
        · exact Or.inr h
    · simp only [hx, if_false, List.toFinset_cons]
      ext y
      simp only [Finset.mem_union, List.mem_toFinset, Finset.mem_insert, List.mem_append,
        List.mem_singleton]
      tauto

theorem jsSet_length (xs : List String) : (jsSet xs).length = xs.toFinset.card := by
  have hn : (jsSet xs).Nodup := jsSet_foldl_nodup xs [] List.nodup_nil
  have hf : (jsSet xs).toFinset = xs.toFinset := by
    unfold jsSet
    rw [jsSet_foldl_toFinset]
    simp
  rw [← hf, List.toFinset_card_of_nodup hn]

theorem sumLikes_ok (posts : List Post) (sum : Nat) (h : ∀ p ∈ posts, p.likes.isSome) :
    sumLikes sum posts = .ok (sum + (posts.map fun p => (p.likes.getD []).length).sum) := by
  induction posts generalizing sum with
  | nil => simp [sumLikes]
  | cons p rest ih =>
    have hp : p.likes.isSome := h p (List.mem_cons_self _ _)
    obtain ⟨likes, hl⟩ := Option.isSome_iff_exists.mp hp
    have hrest : ∀ q ∈ rest, q.likes.isSome := fun q hq => h q (List.mem_cons_of_mem _ hq)
    simp only [sumLikes, hl, List.map_cons, List.sum_cons, Option.getD_some]
    rw [ih _ hrest, Nat.add_assoc]

theorem authorIds_ok (posts : List Post) (h : ∀ p ∈ posts, p.author.isSome) :
    authorIds posts = .ok (posts.filterMap fun p => p.author.map fun a => a._id) := by
  induction posts with
  | nil => simp [authorIds]
  | cons p rest ih =>
    have hp : p.author.isSome := h p (List.mem_cons_self _ _)
    obtain ⟨a, ha⟩ := Option.isSome_iff_exists.mp hp
    have hrest : ∀ q ∈ rest, q.author.isSome := fun q hq => h q (List.mem_cons_of_mem _ hq)
    simp [authorIds, ha, ih hrest]

/-- C1: when the fetch delivers posts that each carry a likes list and an
author, `fetchStats` sets `stats` to the number of posts, the number of distinct
author ids and the sum of the lengths of the likes lists, and changes nothing
else. -/
theorem fetchStats_counts (env : HomeEnv) (s : HomeState) (posts : List Post)
    (hfetch : env.getPosts = .ok posts)
    (hposts : ∀ p ∈ posts, p.likes.isSome ∧ p.author.isSome) :
    fetchStats env s =
      ({ s with stats :=
          { totalPosts := posts.length
            totalUsers := (posts.filterMap fun p => p.author.map fun a => a._id).toFinset.card
            totalLikes := (posts.map fun p => (p.likes.getD []).length).sum } }, .ok ()) := by
  have h1 := sumLikes_ok posts 0 (fun p hp => (hposts p hp).1)
  have h2 := authorIds_ok posts (fun p hp => (hposts p hp).2)
  simp only [fetchStats, Eff.tryCatch, Eff.await, Eff.modify, bind, Eff.andThen, hfetch, h1, h2,
    jsSet_length, Nat.zero_add]


theorem fetchStats_frame (env : HomeEnv) (s : HomeState) :
    ∃ stats, fetchStats env s = ({ s with stats := stats }, .ok ()) := by
  cases h1 : env.getPosts with
  | error e =>
    exact ⟨⟨0, 0, 0⟩, by
      simp only [fetchStats, Eff.tryCatch, Eff.await, Eff.modify, bind, Eff.andThen, h1]⟩
  | ok posts =>
    cases h2 : sumLikes 0 posts with
    | error e =>
      exact ⟨⟨0, 0, 0⟩, by
        simp only [fetchStats, Eff.tryCatch, Eff.await, Eff.modify, bind, Eff.andThen, h1, h2]⟩
    | ok n =>
      cases h3 : authorIds posts with
      | error e =>
        exact ⟨⟨0, 0, 0⟩, by
          simp only [fetchStats, Eff.tryCatch, Eff.await, Eff.modify, bind, Eff.andThen, h1, h2,
            h3]⟩
      | ok ids =>
        exact ⟨⟨posts.length, (jsSet ids).length, n⟩, by
          simp only [fetchStats, Eff.tryCatch, Eff.await, Eff.modify, bind, Eff.andThen, h1, h2,
            h3]⟩

theorem handleLike_success_posts (env : HomeEnv) (s : HomeState) (postId : String)
    (likedPost : Post) (hlike : env.putLike postId = .ok (.success likedPost)) :
    (handleLike env postId s).1.posts
      = s.posts.map (fun post => if post._id = postId then likedPost else post) := by
  obtain ⟨stats, hstats⟩ := fetchStats_frame env
    { s with error := "", posts := s.posts.map (fun post => if post._id = postId then likedPost else post) }
  simp only [handleLike, Eff.tryCatch, Eff.await, Eff.modify, Eff.read, bind, Eff.andThen, hlike,
    hstats]

/-- C2: when `postId` references a post of the local list and the like endpoint
answers success with `likedPost`, `handleLike` completes and sets the list to one
of the same length in which every position that held a post with id `postId`
holds `likedPost` (there is such a position, and exactly one when the ids of the
list are pairwise distinct) and every other position holds the post it held
before. -/
theorem handleLike_replaces_in_place (env : HomeEnv) (s : HomeState) (postId : String)
    (likedPost : Post) (href : ∃ p ∈ s.posts, p._id = postId)
    (hlike : env.putLike postId = .ok (.success likedPost)) :
    (handleLike env postId s).2 = .ok () ∧
    (handleLike env postId s).1.posts.length = s.posts.length ∧
    (∃ (i : Nat) (post : Post), s.posts[i]? = some post ∧ post._id = postId ∧
      (handleLike env postId s).1.posts[i]? = some likedPost) ∧
    (∀ (i : Nat) (post : Post), s.posts[i]? = some post → post._id = postId →
      (handleLike env postId s).1.posts[i]? = some likedPost) ∧
    (∀ (i : Nat) (post : Post), s.posts[i]? = some post → post._id ≠ postId →
      (handleLike env postId s).1.posts[i]? = some post) ∧
    ((s.posts.map fun post => post._id).Nodup →
      ∀ (i j : Nat) (pi pj : Post), s.posts[i]? = some pi → s.posts[j]? = some pj →
        pi._id = postId → pj._id = postId → i = j) := by
  have hposts := handleLike_success_posts env s postId likedPost hlike
  refine ⟨?_, ?_, ?_, ?_, ?_, ?_⟩
  · obtain ⟨stats, hstats⟩ := fetchStats_frame env
      { s with error := "", posts := s.posts.map (fun post => if post._id = postId then likedPost else post) }
    simp only [handleLike, Eff.tryCatch, Eff.await, Eff.modify, Eff.read, bind, Eff.andThen, hlike,
      hstats]
  · rw [hposts, List.length_map]
  · obtain ⟨p, hp, hid⟩ := href
    obtain ⟨i, hi⟩ := List.mem_iff_getElem?.mp hp
    refine ⟨i, p, hi, hid, ?_⟩
    rw [hposts, List.getElem?_map, hi]
    simp [hid]
  · intro i post hi hid
    rw [hposts, List.getElem?_map, hi]
    simp [hid]
  · intro i post hi hid
    rw [hposts, List.getElem?_map, hi]
    simp [hid]
  · intro hnd i j pi pj hi hj hpi hpj
    have hi' : (s.posts.map fun post => post._id)[i]? = some postId := by
      rw [List.getElem?_map, hi]; simp [hpi]
    have hj' : (s.posts.map fun post => post._id)[j]? = some postId := by
      rw [List.getElem?_map, hj]; simp [hpj]
    obtain ⟨hil, hie⟩ := List.getElem?_eq_some.mp hi'
    obtain ⟨hjl, hje⟩ := List.getElem?_eq_some.mp hj'
    exact (List.Nodup.getElem_inj_iff hnd).mp (hie.trans hje.symm)

theorem handleDeletePost_failure_state (env : HomeEnv) (s : HomeState) (postId : String)
    (hconfirm : env.confirm = true) (message : Option String)
    (hdelete : env.deletePost postId = .ok (.failure message)) :
    handleDeletePost env postId s
      = ({ s with error := orElseStr message "Failed to delete post." }, .ok ()) := by
  simp [handleDeletePost, Eff.tryCatch, Eff.await, Eff.modify, Eff.read, Eff.bind_apply,
    Eff.andThen, Eff.pure_apply, hconfirm, hdelete]

theorem handleDeletePost_throw_state (env : HomeEnv) (s : HomeState) (postId : String)
    (hconfirm : env.confirm = true) (e : JsError)
    (hdelete : env.deletePost postId = .error e) :
    handleDeletePost env postId s
      = ({ s with error := (env.handleGenericError e).toMessage }, .ok ()) := by
  simp [handleDeletePost, Eff.tryCatch, Eff.await, Eff.modify, Eff.read, Eff.bind_apply,
    Eff.andThen, Eff.pure_apply, hconfirm, hdelete]

/-- C3, as amended: when the delete call fails, `handleDeletePost` completes,
leaves the local post list (and everything but `error`) as it was, and sets
`error` to the failure message: the message of the server when it sends a
non-empty one, `Failed to delete post.` when it sends none or an empty one, and
the message derived by the error normaliser when the call throws. -/
theorem handleDeletePost_failure_keeps_posts (env : HomeEnv) (s : HomeState) (postId : String)
    (hconfirm : env.confirm = true) :
    (∀ m : String, m ≠ "" → env.deletePost postId = .ok (.failure (some m)) →
      handleDeletePost env postId s = ({ s with error := m }, .ok ()) ∧
      (handleDeletePost env postId s).1.posts = s.posts) ∧
    (env.deletePost postId = .ok (.failure none) ∨
        env.deletePost postId = .ok (.failure (some "")) →
      handleDeletePost env postId s = ({ s with error := "Failed to delete post." }, .ok ()) ∧
      (handleDeletePost env postId s).1.posts = s.posts) ∧
    (∀ e : JsError, env.deletePost postId = .error e →
      handleDeletePost env postId s
        = ({ s with error := (env.handleGenericError e).toMessage }, .ok ()) ∧
      (handleDeletePost env postId s).1.posts = s.posts) := by
  refine ⟨?_, ?_, ?_⟩
  · intro m hm hdelete
    rw [handleDeletePost_failure_state env s postId hconfirm _ hdelete]
    simp [orElseStr, hm]
  · rintro (hdelete | hdelete) <;>
      rw [handleDeletePost_failure_state env s postId hconfirm _ hdelete] <;>
      simp [orElseStr]
  · intro e hdelete
    rw [handleDeletePost_throw_state env s postId hconfirm e hdelete]
    simp


theorem handleSubmit_blank_title (env : ModalEnv) (s : ModalState)
    (htitle : jsTrim s.title = "") :
    handleSubmit env s
      = ({ s with error := "Please enter a title for your post." }, .ok ()) := by
  simp [handleSubmit, Eff.modify, Eff.read, Eff.bind_apply, Eff.andThen, Eff.pure_apply, htitle]

theorem handleSubmit_blank_content (env : ModalEnv) (s : ModalState)
    (htitle : jsTrim s.title ≠ "") (hcontent : jsTrim s.content = "") :
    handleSubmit env s
      = ({ s with error := "Please enter some content for your post." }, .ok ()) := by
  simp [handleSubmit, Eff.modify, Eff.read, Eff.bind_apply, Eff.andThen, Eff.pure_apply, htitle,
    hcontent]

theorem handleSubmit_valid_events (env : ModalEnv) (s : ModalState)
    (htitle : jsTrim s.title ≠ "") (hcontent : jsTrim s.content ≠ "") :
    ∃ rest, (handleSubmit env s).1.events
      = s.events ++ ModalEvent.apiPost (jsTrim s.title) (jsTrim s.content) :: rest := by
  cases hpost : env.postPosts (jsTrim s.title) (jsTrim s.content) with
  | error e =>
    exact ⟨[], by
      simp [handleSubmit, apiPostPosts, emit, Eff.tryFinally, Eff.tryCatch, Eff.await, Eff.modify,
        Eff.read, Eff.bind_apply, Eff.andThen, Eff.pure_apply, htitle, hcontent, hpost]⟩
  | ok response =>
    cases response with
    | success post =>
      exact ⟨[.onClose, .onPostCreated post], by
        simp [handleSubmit, apiPostPosts, emit, Eff.tryFinally, Eff.tryCatch, Eff.await,
          Eff.modify, Eff.read, Eff.bind_apply, Eff.andThen, Eff.pure_apply, htitle, hcontent,
          hpost]⟩
    | failure message =>
      exact ⟨[], by
        simp [handleSubmit, apiPostPosts, emit, Eff.tryFinally, Eff.tryCatch, Eff.await,
          Eff.modify, Eff.read, Eff.bind_apply, Eff.andThen, Eff.pure_apply, htitle, hcontent,
          hpost]⟩

/-- C4: a submission issues the `POST /api/posts` call if and only if the
trimmed title and the trimmed content are both non-empty (and then with the
trimmed values).  When the trimmed title is empty the form sets the error
`Please enter a title for your post.`, when only the trimmed content is empty
the error `Please enter some content for your post.`; in both cases it issues no
event at all (no network call, no `onClose`, no `onPostCreated`), changes
nothing else, and the feed of `Home` stays as it was. -/
theorem handleSubmit_validates (env : ModalEnv) (s : ModalState) :
    ((∃ title content, ModalEvent.apiPost title content ∈ submitEvents env s) ↔
      (jsTrim s.title ≠ "" ∧ jsTrim s.content ≠ "")) ∧
    (jsTrim s.title ≠ "" ∧ jsTrim s.content ≠ "" →
      ModalEvent.apiPost (jsTrim s.title) (jsTrim s.content) ∈ submitEvents env s) ∧
    (jsTrim s.title = "" →
      handleSubmit env s = ({ s with error := "Please enter a title for your post." }, .ok ())) ∧
    (jsTrim s.title ≠ "" → jsTrim s.content = "" →
      handleSubmit env s
        = ({ s with error := "Please enter some content for your post." }, .ok ())) ∧
    (jsTrim s.title = "" ∨ jsTrim s.content = "" →
      submitEvents env s = [] ∧
      ∀ (home : HomeEnv) (feed : HomeState),
        onModalEvents home (submitEvents env s) feed = (feed, .ok ())) := by
  have hinvalid : jsTrim s.title = "" ∨ jsTrim s.content = "" → submitEvents env s = [] := by
    intro h
    by_cases htitle : jsTrim s.title = ""
    · simp [submitEvents, handleSubmit_blank_title env _ htitle]
    · have hcontent : jsTrim s.content = "" := h.resolve_left htitle
      simp [submitEvents, handleSubmit_blank_content env _ htitle hcontent]
  have hvalid : jsTrim s.title ≠ "" ∧ jsTrim s.content ≠ "" →
      ModalEvent.apiPost (jsTrim s.title) (jsTrim s.content) ∈ submitEvents env s := by
    rintro ⟨htitle, hcontent⟩
    obtain ⟨rest, hrest⟩ := handleSubmit_valid_events env s htitle hcontent
    simp [submitEvents, hrest]
  refine ⟨⟨?_, fun h => ⟨_, _, hvalid h⟩⟩, hvalid, ?_, ?_, ?_⟩
  · rintro ⟨title, content, hmem⟩
    by_contra hnot
    have hor : jsTrim s.title = "" ∨ jsTrim s.content = "" := by
      by_cases htitle : jsTrim s.title = ""
      · exact Or.inl htitle
      · exact Or.inr (by_contra fun hcontent => hnot ⟨htitle, hcontent⟩)
    rw [hinvalid hor] at hmem
    exact List.not_mem_nil _ hmem
  · exact handleSubmit_blank_title env s
  · exact handleSubmit_blank_content env s
  · intro h
    rw [hinvalid h]
    exact ⟨rfl, fun _ _ => rfl⟩


/-- C5: `logout` is idempotent: a second call returns the state of the first,
and after the first call as after the second the persisted token is absent,
`user` is absent and `error` is empty; `logout` never throws. -/
theorem logout_idempotent (s : AuthState) :
    logout (logout s).1 = logout s ∧
    (logout s).2 = .ok () ∧
    (logout s).1.token = none ∧ (logout s).1.user = none ∧ (logout s).1.error = "" ∧
    (logout (logout s).1).1.token = none ∧ (logout (logout s).1).1.user = none ∧
    (logout (logout s).1).1.error = "" :=
  ⟨rfl, rfl, rfl, rfl, rfl, rfl, rfl, rfl⟩

theorem checkAuthStatus_no_token (env : AuthEnv) (s : AuthState)
    (htoken : truthyStr s.token = false) :
    checkAuthStatus env s = ({ s with loading := false }, .ok ()) := by
  simp [checkAuthStatus, Eff.tryFinally, Eff.tryCatch, Eff.await, Eff.modify, Eff.bind_apply,
    Eff.andThen, Eff.pure_apply, getToken, setLoading, htoken]

theorem checkAuthStatus_success (env : AuthEnv) (s : AuthState) (user : User)
    (htoken : truthyStr s.token = true) (hme : env.getMe = .ok (.success user)) :
    checkAuthStatus env s = ({ s with user := some user, loading := false }, .ok ()) := by
  simp [checkAuthStatus, Eff.tryFinally, Eff.tryCatch, Eff.await, Eff.modify, Eff.bind_apply,
    Eff.andThen, Eff.pure_apply, getToken, setLoading, setUser, htoken, hme]

theorem checkAuthStatus_failure (env : AuthEnv) (s : AuthState) (message : Option String)
    (htoken : truthyStr s.token = true) (hme : env.getMe = .ok (.failure message)) :
    checkAuthStatus env s
      = ({ s with token := none, user := none, loading := false }, .ok ()) := by
  simp [checkAuthStatus, Eff.tryFinally, Eff.tryCatch, Eff.await, Eff.modify, Eff.bind_apply,
    Eff.andThen, Eff.pure_apply, getToken, setLoading, setUser, removeToken, htoken, hme]

theorem checkAuthStatus_throw (env : AuthEnv) (s : AuthState) (e : JsError)
    (htoken : truthyStr s.token = true) (hme : env.getMe = .error e) :
    checkAuthStatus env s
      = ({ s with token := none, user := none, loading := false }, .ok ()) := by
  simp [checkAuthStatus, Eff.tryFinally, Eff.tryCatch, Eff.await, Eff.modify, Eff.bind_apply,
    Eff.andThen, Eff.pure_apply, getToken, setLoading, setUser, removeToken, htoken, hme]

/-- C6: for every persisted token and every outcome of the who-am-I call,
`checkAuthStatus` completes with `loading` false.  The call is made exactly when
a token is persisted; when it succeeds `user` is the returned user, and when it
fails (a response with success false, or a throw) the persisted token is removed
and `user` is absent.  Without a persisted token only `loading` changes. -/
theorem checkAuthStatus_terminates (env : AuthEnv) (s : AuthState) :
    (checkAuthStatus env s).2 = .ok () ∧
    (checkAuthStatus env s).1.loading = false ∧
    (truthyStr s.token = true → ∀ user, env.getMe = .ok (.success user) →
      (checkAuthStatus env s).1.user = some user) ∧
    (truthyStr s.token = true →
      ((∃ message, env.getMe = .ok (.failure message)) ∨ (∃ e, env.getMe = .error e)) →
      (checkAuthStatus env s).1.token = none ∧ (checkAuthStatus env s).1.user = none) ∧
    (truthyStr s.token = false → (checkAuthStatus env s).1 = { s with loading := false }) := by
  cases htoken : truthyStr s.token with
  | false =>
    rw [checkAuthStatus_no_token env s htoken]
    simp
  | true =>
    cases hme : env.getMe with
    | error e =>
      rw [checkAuthStatus_throw env s e htoken hme]
      simp
    | ok response =>
      cases response with
      | success user =>
        rw [checkAuthStatus_success env s user htoken hme]
        simp
      | failure message =>
        rw [checkAuthStatus_failure env s message htoken hme]
        simp


theorem login_success_state (env : AuthEnv) (s : AuthState) (email password token : String)
    (user : User) (hlogin : env.postLogin email password = .ok (.success token user)) :
    login env email password s
      = ({ token := some token, user := some user, loading := false, error := "" },
          .ok { success := true }) := by
  simp [login, Eff.tryFinally, Eff.tryCatch, Eff.await, Eff.modify, Eff.bind_apply,
    Eff.andThen, Eff.pure_apply, setToken, setLoading, setUser, setError, hlogin]

theorem register_success_state (env : AuthEnv) (s : AuthState) (name email password token : String)
    (user : User) (hregister : env.postRegister name email password = .ok (.success token user)) :
    register env name email password s
      = ({ token := some token, user := some user, loading := false, error := "" },
          .ok { success := true }) := by
  simp [register, Eff.tryFinally, Eff.tryCatch, Eff.await, Eff.modify, Eff.bind_apply,
    Eff.andThen, Eff.pure_apply, setToken, setLoading, setUser, setError, hregister]

theorem login_failure_state (env : AuthEnv) (s : AuthState) (email password : String)
    (message : Option String) (hlogin : env.postLogin email password = .ok (.failure message)) :
    login env email password s
      = ({ s with loading := false, error := orElseStr message "Login failed" },
          .ok { success := false, message := some (orElseStr message "Login failed") }) := by
  simp [login, Eff.tryFinally, Eff.tryCatch, Eff.await, Eff.modify, Eff.bind_apply,
    Eff.andThen, Eff.pure_apply, setToken, setLoading, setUser, setError, hlogin]

theorem register_failure_state (env : AuthEnv) (s : AuthState) (name email password : String)
    (message : Option String)
    (hregister : env.postRegister name email password = .ok (.failure message)) :
    register env name email password s
      = ({ s with loading := false, error := orElseStr message "Registration failed" },
          .ok { success := false, message := some (orElseStr message "Registration failed") }) := by
  simp [register, Eff.tryFinally, Eff.tryCatch, Eff.await, Eff.modify, Eff.bind_apply,
    Eff.andThen, Eff.pure_apply, setToken, setLoading, setUser, setError, hregister]

theorem login_throw_state (env : AuthEnv) (s : AuthState) (email password : String)
    (e : JsError) (hlogin : env.postLogin email password = .error e) :
    login env email password s
      = ({ s with loading := false, error := (env.handleGenericError e).toMessage },
          .ok { success := false, message := some (env.handleGenericError e).toMessage }) := by
  simp [login, Eff.tryFinally, Eff.tryCatch, Eff.await, Eff.modify, Eff.bind_apply,
    Eff.andThen, Eff.pure_apply, setToken, setLoading, setUser, setError, hlogin]

/-- C7: on a success response `{success, token, user}` of the login endpoint,
`login` persists the returned token, sets `user` to the returned user, ends with
`loading` false and `error` empty, and returns `{ success: true }`, whatever the
session was before; `register` does the same on a success response of the
registration endpoint. -/
theorem login_register_success (env : AuthEnv) (s : AuthState) (token : String) (user : User) :
    (∀ email password, env.postLogin email password = .ok (.success token user) →
      (login env email password s).1.token = some token ∧
      (login env email password s).1.user = some user ∧
      (login env email password s).1.loading = false ∧
      (login env email password s).1.error = "" ∧
      (login env email password s).2 = .ok { success := true, message := none }) ∧
    (∀ name email password, env.postRegister name email password = .ok (.success token user) →
      (register env name email password s).1.token = some token ∧
      (register env name email password s).1.user = some user ∧
      (register env name email password s).1.loading = false ∧
      (register env name email password s).1.error = "" ∧
      (register env name email password s).2 = .ok { success := true, message := none }) := by
  constructor
  · intro email password hlogin
    rw [login_success_state env s email password token user hlogin]
    simp
  · intro name email password hregister
    rw [register_success_state env s name email password token user hregister]
    simp

/-- C8, as amended: on a response with success false that carries a non-empty
message `m`, `login` does not throw and returns `{ success: false, message: m }`,
and so does `register`; `error` is set to the same `m`.  (An absent or empty
`message` is replaced by the default text, see `login_failure_state`.) -/
theorem login_register_failure_message (env : AuthEnv) (s : AuthState) (m : String)
    (hm : m ≠ "") :
    (∀ email password, env.postLogin email password = .ok (.failure (some m)) →
      (login env email password s).2 = .ok { success := false, message := some m } ∧
      (login env email password s).1.error = m) ∧
    (∀ name email password, env.postRegister name email password = .ok (.failure (some m)) →
      (register env name email password s).2 = .ok { success := false, message := some m } ∧
      (register env name email password s).1.error = m) := by
  constructor
  · intro email password hlogin
    rw [login_failure_state env s email password _ hlogin]
    simp [orElseStr, hm]
  · intro name email password hregister
    rw [register_failure_state env s name email password _ hregister]
    simp [orElseStr, hm]

/-- C9, as amended: when the remote login call throws `e`, `login` does not
throw, returns `{ success: false, message }` with the message the error
normaliser derives from `e`, sets `error` to that message and `loading` to
false, and leaves `user` and the persisted token as they were; in particular a
session without a user stays without one. -/
theorem login_throw_keeps_session (env : AuthEnv) (s : AuthState) (email password : String)
    (e : JsError) (hlogin : env.postLogin email password = .error e) :
    login env email password s
      = ({ s with loading := false, error := (env.handleGenericError e).toMessage },
          .ok { success := false, message := some (env.handleGenericError e).toMessage }) ∧
    (login env email password s).1.user = s.user ∧
    (login env email password s).1.token = s.token ∧
    (s.user = none → (login env email password s).1.user = none) := by
  rw [login_throw_state env s email password e hlogin]
  simp

theorem updateProfile_success_state (env : AuthEnv) (s : AuthState) (name bio : String)
    (user : User) (hput : env.putProfile name bio = .ok (.success user)) :
    updateProfile env name bio s
      = ({ s with user := some user, loading := false, error := "" },
          .ok { success := true }) := by
  simp [updateProfile, Eff.tryFinally, Eff.tryCatch, Eff.await, Eff.modify, Eff.bind_apply,
    Eff.andThen, Eff.pure_apply, setLoading, setUser, setError, hput]

theorem updateProfile_failure_state (env : AuthEnv) (s : AuthState) (name bio : String)
    (message : Option String) (hput : env.putProfile name bio = .ok (.failure message)) :
    updateProfile env name bio s
      = ({ s with loading := false, error := orElseStr message "Profile update failed" },
          .ok { success := false,
                message := some (orElseStr message "Profile update failed") }) := by
  simp [updateProfile, Eff.tryFinally, Eff.tryCatch, Eff.await, Eff.modify, Eff.bind_apply,
    Eff.andThen, Eff.pure_apply, setLoading, setUser, setError, hput]

theorem updateProfile_throw_state (env : AuthEnv) (s : AuthState) (name bio : String)
    (e : JsError) (hput : env.putProfile name bio = .error e) :
    updateProfile env name bio s
      = ({ s with loading := false, error := (env.handleGenericError e).toMessage },
          .ok { success := false, message := some (env.handleGenericError e).toMessage }) := by
  simp [updateProfile, Eff.tryFinally, Eff.tryCatch, Eff.await, Eff.modify, Eff.bind_apply,
    Eff.andThen, Eff.pure_apply, setLoading, setUser, setError, hput]

/-- C10: on a success response `updateProfile` sets `user` to the returned user,
returns `{ success: true }` and leaves the persisted token as it was; on a
response with success false and on a throw it returns a result with `success`
false and leaves both `user` and the persisted token as they were. -/
theorem updateProfile_frame (env : AuthEnv) (s : AuthState) (name bio : String) :
    (∀ user, env.putProfile name bio = .ok (.success user) →
      (updateProfile env name bio s).1.user = some user ∧
      (updateProfile env name bio s).1.token = s.token ∧
      (updateProfile env name bio s).2 = .ok { success := true, message := none }) ∧
    (∀ message, env.putProfile name bio = .ok (.failure message) →
      (∃ r, (updateProfile env name bio s).2 = .ok r ∧ r.success = false) ∧
      (updateProfile env name bio s).1.user = s.user ∧
      (updateProfile env name bio s).1.token = s.token) ∧
    (∀ e, env.putProfile name bio = .error e →
      (∃ r, (updateProfile env name bio s).2 = .ok r ∧ r.success = false) ∧
      (updateProfile env name bio s).1.user = s.user ∧
      (updateProfile env name bio s).1.token = s.token) := by
  refine ⟨?_, ?_, ?_⟩
  · intro user hput
    rw [updateProfile_success_state env s name bio user hput]
    simp
  · intro message hput
    rw [updateProfile_failure_state env s name bio message hput]
    simp
  · intro e hput
    rw [updateProfile_throw_state env s name bio e hput]
    simp

/-! ## Deleting and creating posts -/

theorem handleDeletePost_success_state (env : HomeEnv) (s : HomeState) (postId : String)
    (hconfirm : env.confirm = true) (hdelete : env.deletePost postId = .ok .success) :
    ∃ stats, handleDeletePost env postId s
      = ({ s with error := "", posts := s.posts.filter (fun post => post._id ≠ postId),
                  stats := stats }, .ok ()) := by
  obtain ⟨stats, hstats⟩ := fetchStats_frame env
    { s with error := "", posts := s.posts.filter (fun post => post._id ≠ postId) }
  refine ⟨stats, ?_⟩
  simp only [ne_eq, decide_not] at hstats
  simp [handleDeletePost, Eff.tryCatch, Eff.await, Eff.modify, Eff.read, Eff.bind_apply,
    Eff.andThen, Eff.pure_apply, hconfirm, hdelete, hstats]

theorem handleDeletePost_posts_cases (env : HomeEnv) (s : HomeState) (postId : String) :
    (handleDeletePost env postId s).1.posts = s.posts ∨
    (handleDeletePost env postId s).1.posts
      = s.posts.filter (fun post => post._id ≠ postId) := by
  cases hconfirm : env.confirm with
  | false =>
    left
    simp [handleDeletePost, Eff.read, Eff.bind_apply, Eff.andThen, Eff.pure_apply, hconfirm]
  | true =>
    cases hdelete : env.deletePost postId with
    | error e =>
      left
      rw [handleDeletePost_throw_state env s postId hconfirm e hdelete]
    | ok response =>
      cases response with
      | success =>
        right
        obtain ⟨stats, hstats⟩ := handleDeletePost_success_state env s postId hconfirm hdelete
        rw [hstats]
      | failure message =>
        left
        rw [handleDeletePost_failure_state env s postId hconfirm message hdelete]

/-- C11: when the user has confirmed and the delete endpoint answers success,
`handleDeletePost` completes and sets the list to the original list without the
posts whose id is `postId`: no post with that id remains, every other post
occurs as often as before, and the new list is a sublist of the old one, so the
posts that are kept stay in their relative order. -/
theorem handleDeletePost_success_removes (env : HomeEnv) (s : HomeState) (postId : String)
    (hconfirm : env.confirm = true) (hdelete : env.deletePost postId = .ok .success) :
    (handleDeletePost env postId s).2 = .ok () ∧
    (∀ p ∈ (handleDeletePost env postId s).1.posts, p._id ≠ postId) ∧
    (∀ p ∈ s.posts, p._id ≠ postId → p ∈ (handleDeletePost env postId s).1.posts) ∧
    (∀ p : Post, p._id ≠ postId →
      (handleDeletePost env postId s).1.posts.count p = s.posts.count p) ∧
    (handleDeletePost env postId s).1.posts.Sublist s.posts := by
  obtain ⟨stats, hstats⟩ := handleDeletePost_success_state env s postId hconfirm hdelete
  rw [hstats]
  refine ⟨rfl, ?_, ?_, ?_, ?_⟩
  · intro p hp
    simpa using (List.mem_filter.mp hp).2
  · intro p hp hid
    exact List.mem_filter.mpr ⟨hp, by simpa using hid⟩
  · intro p hid
    simp only [List.count_filter (p := fun post => decide (post._id ≠ postId))
      (l := s.posts) (a := p) (by simpa using hid)]
  · exact List.filter_sublist s.posts

theorem handlePostCreated_state (env : HomeEnv) (s : HomeState) (newPost : Post) :
    ∃ stats, handlePostCreated env newPost s
      = ({ s with posts := newPost :: s.posts, stats := stats }, .ok ()) := by
  obtain ⟨stats, hstats⟩ := fetchStats_frame env { s with posts := newPost :: s.posts }
  refine ⟨stats, ?_⟩
  simp [handlePostCreated, Eff.modify, Eff.read, Eff.bind_apply, Eff.andThen, Eff.pure_apply,
    hstats]

theorem handleSubmit_created_only_on_success (env : ModalEnv) (s : ModalState) (post : Post)
    (hmem : ModalEvent.onPostCreated post ∈ submitEvents env s) :
    jsTrim s.title ≠ "" ∧ jsTrim s.content ≠ "" ∧
    env.postPosts (jsTrim s.title) (jsTrim s.content) = .ok (.success post) := by
  by_cases htitle : jsTrim s.title = ""
  · simp [submitEvents, handleSubmit_blank_title env s htitle] at hmem
  by_cases hcontent : jsTrim s.content = ""
  · simp [submitEvents, handleSubmit_blank_content env s htitle hcontent] at hmem
  refine ⟨htitle, hcontent, ?_⟩
  cases hpost : env.postPosts (jsTrim s.title) (jsTrim s.content) with
  | error e =>
    simp [submitEvents, handleSubmit, apiPostPosts, emit, Eff.tryFinally, Eff.tryCatch,
      Eff.await, Eff.modify, Eff.read, Eff.bind_apply, Eff.andThen, Eff.pure_apply, htitle,
      hcontent, hpost] at hmem
  | ok response =>
    cases response with
    | success created =>
      simp [submitEvents, handleSubmit, apiPostPosts, emit, Eff.tryFinally, Eff.tryCatch,
        Eff.await, Eff.modify, Eff.read, Eff.bind_apply, Eff.andThen, Eff.pure_apply, htitle,
        hcontent, hpost] at hmem
      rw [hmem]
    | failure message =>
      simp [submitEvents, handleSubmit, apiPostPosts, emit, Eff.tryFinally, Eff.tryCatch,
        Eff.await, Eff.modify, Eff.read, Eff.bind_apply, Eff.andThen, Eff.pure_apply, htitle,
        hcontent, hpost] at hmem

theorem handleSubmit_success_events (env : ModalEnv) (s : ModalState) (post : Post)
    (htitle : jsTrim s.title ≠ "") (hcontent : jsTrim s.content ≠ "")
    (hpost : env.postPosts (jsTrim s.title) (jsTrim s.content) = .ok (.success post)) :
    submitEvents env s
      = [.apiPost (jsTrim s.title) (jsTrim s.content), .onClose, .onPostCreated post] := by
  simp [submitEvents, handleSubmit, apiPostPosts, emit, Eff.tryFinally, Eff.tryCatch,
    Eff.await, Eff.modify, Eff.read, Eff.bind_apply, Eff.andThen, Eff.pure_apply, htitle,
    hcontent, hpost]

theorem onModalEvents_without_created (env : HomeEnv) (feed : HomeState)
    (events : List ModalEvent) (hnone : ∀ post, ModalEvent.onPostCreated post ∉ events) :
    (onModalEvents env events feed).1.posts = feed.posts ∧
    (onModalEvents env events feed).2 = .ok () := by
  induction events generalizing feed with
  | nil => exact ⟨rfl, rfl⟩
  | cons e rest ih =>
    have hrest : ∀ post, ModalEvent.onPostCreated post ∉ rest :=
      fun post h => hnone post (List.mem_cons_of_mem _ h)
    cases e with
    | apiPost title content =>
      simpa [onModalEvents, onModalEvent, Eff.bind_apply, Eff.andThen, Eff.pure_apply]
        using ih feed hrest
    | onClose =>
      simpa [onModalEvents, onModalEvent, Eff.modify, Eff.bind_apply, Eff.andThen]
        using ih { feed with showCreateModal := false } hrest
    | onPostCreated post => exact absurd (List.mem_cons_self _ _) (hnone post)

theorem onModalEvents_success (env : HomeEnv) (feed : HomeState) (title content : String)
    (post : Post) :
    (onModalEvents env [.apiPost title content, .onClose, .onPostCreated post] feed).1.posts
      = post :: feed.posts ∧
    (onModalEvents env [.apiPost title content, .onClose, .onPostCreated post] feed).2
      = .ok () := by
  obtain ⟨stats, hstats⟩ := handlePostCreated_state env { feed with showCreateModal := false } post
  simp [onModalEvents, onModalEvent, Eff.modify, Eff.bind_apply, Eff.andThen, Eff.pure_apply,
    hstats]

/-- C12: `handlePostCreated` completes and sets the list to the new post followed
by all previous posts in unchanged order, so the length grows by one and the new
post is first.  A submission of a valid form whose create call answers success
with a post issues the call, `onClose` and `onPostCreated` with that very post,
and `Home` then holds that post followed by all previous posts.  The form
invokes `onPostCreated` with a post only after the create call has answered
success with it, and a submission whose create call does not answer success
(or that is rejected by the validation) leaves the list as it was, so nothing is
inserted before the confirmation of the server. -/
theorem handlePostCreated_prepends (env : HomeEnv) (s : HomeState) (newPost : Post) :
    (handlePostCreated env newPost s).2 = .ok () ∧
    (handlePostCreated env newPost s).1.posts = newPost :: s.posts ∧
    (handlePostCreated env newPost s).1.posts.length = s.posts.length + 1 ∧
    (handlePostCreated env newPost s).1.posts.head? = some newPost ∧
    (∀ (modalEnv : ModalEnv) (modal : ModalState) (post : Post),
      ModalEvent.onPostCreated post ∈ submitEvents modalEnv modal →
      modalEnv.postPosts (jsTrim modal.title) (jsTrim modal.content) = .ok (.success post)) ∧
    (∀ (modalEnv : ModalEnv) (modal : ModalState),
      jsTrim modal.title ≠ "" → jsTrim modal.content ≠ "" →
      modalEnv.postPosts (jsTrim modal.title) (jsTrim modal.content) = .ok (.success newPost) →
      submitEvents modalEnv modal
        = [.apiPost (jsTrim modal.title) (jsTrim modal.content), .onClose,
            .onPostCreated newPost] ∧
      (onModalEvents env (submitEvents modalEnv modal) s).2 = .ok () ∧
      (onModalEvents env (submitEvents modalEnv modal) s).1.posts = newPost :: s.posts ∧
      (onModalEvents env (submitEvents modalEnv modal) s).1.posts.length
        = s.posts.length + 1) ∧
    (∀ (modalEnv : ModalEnv) (modal : ModalState),
      (∀ post, modalEnv.postPosts (jsTrim modal.title) (jsTrim modal.content)
        ≠ .ok (.success post)) →
      (onModalEvents env (submitEvents modalEnv modal) s).1.posts = s.posts) := by
  obtain ⟨stats, hstats⟩ := handlePostCreated_state env s newPost
  rw [hstats]
  refine ⟨rfl, rfl, by simp, rfl, ?_, ?_, ?_⟩
  · intro modalEnv modal post hmem
    exact (handleSubmit_created_only_on_success modalEnv modal post hmem).2.2
  · intro modalEnv modal htitle hcontent hpost
    have hevents := handleSubmit_success_events modalEnv modal newPost htitle hcontent hpost
    have hfeed := onModalEvents_success env s (jsTrim modal.title) (jsTrim modal.content) newPost
    rw [hevents]
    refine ⟨rfl, hfeed.2, hfeed.1, ?_⟩
    rw [hfeed.1, List.length_cons]
  · intro modalEnv modal hno
    refine (onModalEvents_without_created env s _ ?_).1
    intro post hmem
    exact hno post (handleSubmit_created_only_on_success modalEnv modal post hmem).2.2


/-! ## Uniqueness of post ids -/

theorem map_id_replace (posts : List Post) (postId : String) (likedPost : Post) :
    (posts.map (fun post => if post._id = postId then likedPost else post)).map
        (fun post => post._id)
      = (posts.map fun post => post._id).map
          (fun i => if i = postId then likedPost._id else i) := by
  simp only [List.map_map]
  apply List.map_congr_left
  intro post _
  by_cases h : post._id = postId <;> simp [h]

theorem nodup_ids_replace (posts : List Post) (postId : String) (likedPost : Post)
    (hnodup : (posts.map fun post => post._id).Nodup)
    (hid : likedPost._id = postId ∨ likedPost._id ∉ posts.map fun post => post._id) :
    ((posts.map (fun post => if post._id = postId then likedPost else post)).map
      fun post => post._id).Nodup := by
  rw [map_id_replace]
  apply List.Nodup.map_on _ hnodup
  intro x hx y hy hxy
  by_cases h1 : x = postId <;> by_cases h2 : y = postId
  · rw [h1, h2]
  · simp only [h1, h2, if_true, if_false] at hxy
    rcases hid with hid | hid
    · rw [h1, ← hid, hxy]
    · exact absurd (hxy ▸ hy) hid
  · simp only [h1, h2, if_true, if_false] at hxy
    rcases hid with hid | hid
    · rw [h2, ← hid, ← hxy]
    · exact absurd (hxy.symm ▸ hx) hid
  · simpa [h1, h2] using hxy

theorem nodup_ids_filter (posts : List Post) (postId : String)
    (hnodup : (posts.map fun post => post._id).Nodup) :
    ((posts.filter (fun post => post._id ≠ postId)).map fun post => post._id).Nodup :=
  List.Nodup.sublist (List.Sublist.map _ (List.filter_sublist posts)) hnodup

/-- C13, as amended: when the ids of the local list are pairwise distinct, they
are pairwise distinct after `handlePostCreated` with a post whose id is not yet
in the list, after a successful `handleLike` whose returned post carries the id
`postId` or an id that is not in the list, and after every `handleDeletePost`. -/
theorem feed_ids_stay_distinct (env : HomeEnv) (s : HomeState)
    (hnodup : (s.posts.map fun post => post._id).Nodup) :
    (∀ newPost : Post, newPost._id ∉ s.posts.map (fun post => post._id) →
      ((handlePostCreated env newPost s).1.posts.map fun post => post._id).Nodup) ∧
    (∀ (postId : String) (likedPost : Post),
      env.putLike postId = .ok (.success likedPost) →
      (likedPost._id = postId ∨ likedPost._id ∉ s.posts.map fun post => post._id) →
      ((handleLike env postId s).1.posts.map fun post => post._id).Nodup) ∧
    (∀ postId : String,
      ((handleDeletePost env postId s).1.posts.map fun post => post._id).Nodup) := by
  refine ⟨?_, ?_, ?_⟩
  · intro newPost hnew
    obtain ⟨stats, hstats⟩ := handlePostCreated_state env s newPost
    rw [hstats]
    exact List.nodup_cons.mpr ⟨hnew, hnodup⟩
  · intro postId likedPost hlike hid
    rw [handleLike_success_posts env s postId likedPost hlike]
    exact nodup_ids_replace s.posts postId likedPost hnodup hid
  · intro postId
    rcases handleDeletePost_posts_cases env s postId with h | h
    · rw [h]
      exact hnodup
    · rw [h]
      exact nodup_ids_filter s.posts postId hnodup


/-! ## Registration form -/

theorem jsLength_empty : jsLength "" = 0 := rfl

theorem jsTrim_ne_empty_of_length (s : String) (h : 2 ≤ jsLength (jsTrim s)) :
    jsTrim s ≠ "" := by
  intro hempty
  rw [hempty, jsLength_empty] at h
  exact absurd h (by decide)

theorem register_blank_name (env : AuthEnv) (s : RegisterState)
    (hname : jsTrim s.formData.name = "") :
    Register.handleSubmit env s
      = ({ s with error := some "Please enter your full name." }, .ok ()) := by
  simp [Register.handleSubmit, Eff.modify, Eff.read, Eff.bind_apply, Eff.andThen,
    Eff.pure_apply, hname]

theorem register_short_name (env : AuthEnv) (s : RegisterState)
    (hname : jsTrim s.formData.name ≠ "") (hshort : jsLength (jsTrim s.formData.name) < 2) :
    Register.handleSubmit env s
      = ({ s with error := some "Name must be at least 2 characters long." }, .ok ()) := by
  simp [Register.handleSubmit, Eff.modify, Eff.read, Eff.bind_apply, Eff.andThen,
    Eff.pure_apply, hname, hshort]

theorem register_blank_email (env : AuthEnv) (s : RegisterState)
    (hname : 2 ≤ jsLength (jsTrim s.formData.name)) (hemail : jsTrim s.formData.email = "") :
    Register.handleSubmit env s
      = ({ s with error := some "Please enter your email address." }, .ok ()) := by
  have h1 := jsTrim_ne_empty_of_length _ hname
  have h2 : ¬ jsLength (jsTrim s.formData.name) < 2 := Nat.not_lt.mpr hname
  simp [Register.handleSubmit, Eff.modify, Eff.read, Eff.bind_apply, Eff.andThen,
    Eff.pure_apply, h1, h2, hemail]

theorem register_blank_password (env : AuthEnv) (s : RegisterState)
    (hname : 2 ≤ jsLength (jsTrim s.formData.name)) (hemail : jsTrim s.formData.email ≠ "")
    (hpassword : jsTrim s.formData.password = "") :
    Register.handleSubmit env s
      = ({ s with error := some "Please enter a password." }, .ok ()) := by
  have h1 := jsTrim_ne_empty_of_length _ hname
  have h2 : ¬ jsLength (jsTrim s.formData.name) < 2 := Nat.not_lt.mpr hname
  simp [Register.handleSubmit, Eff.modify, Eff.read, Eff.bind_apply, Eff.andThen,
    Eff.pure_apply, h1, h2, hemail, hpassword]

theorem register_short_password (env : AuthEnv) (s : RegisterState)
    (hname : 2 ≤ jsLength (jsTrim s.formData.name)) (hemail : jsTrim s.formData.email ≠ "")
    (hpassword : jsTrim s.formData.password ≠ "") (hshort : jsLength s.formData.password < 6) :
    Register.handleSubmit env s
      = ({ s with error := some "Password must be at least 6 characters long." }, .ok ()) := by
  have h1 := jsTrim_ne_empty_of_length _ hname
  have h2 : ¬ jsLength (jsTrim s.formData.name) < 2 := Nat.not_lt.mpr hname
  simp [Register.handleSubmit, Eff.modify, Eff.read, Eff.bind_apply, Eff.andThen,
    Eff.pure_apply, h1, h2, hemail, hpassword, hshort]

theorem register_password_mismatch (env : AuthEnv) (s : RegisterState)
    (hname : 2 ≤ jsLength (jsTrim s.formData.name)) (hemail : jsTrim s.formData.email ≠ "")
    (hpassword : jsTrim s.formData.password ≠ "") (hlong : 6 ≤ jsLength s.formData.password)
    (hconfirm : s.formData.password ≠ s.formData.confirmPassword) :
    Register.handleSubmit env s
      = ({ s with error := some "Passwords do not match." }, .ok ()) := by
  have h1 := jsTrim_ne_empty_of_length _ hname
  have h2 : ¬ jsLength (jsTrim s.formData.name) < 2 := Nat.not_lt.mpr hname
  have h3 : ¬ jsLength s.formData.password < 6 := Nat.not_lt.mpr hlong
  simp [Register.handleSubmit, Eff.modify, Eff.read, Eff.bind_apply, Eff.andThen,
    Eff.pure_apply, h1, h2, h3, hemail, hpassword, hconfirm]

theorem register_valid_events (env : AuthEnv) (s : RegisterState)
    (hname : 2 ≤ jsLength (jsTrim s.formData.name)) (hemail : jsTrim s.formData.email ≠ "")
    (hpassword : jsTrim s.formData.password ≠ "") (hlong : 6 ≤ jsLength s.formData.password)
    (hconfirm : s.formData.password = s.formData.confirmPassword) :
    Register.submitEvents env s
        = [.register (jsTrim s.formData.name) (jsTrim s.formData.email) s.formData.password] ∨
    Register.submitEvents env s
        = [.register (jsTrim s.formData.name) (jsTrim s.formData.email) s.formData.password,
            .navigate "/"] := by
  have h1 := jsTrim_ne_empty_of_length _ hname
  have h2 : ¬ jsLength (jsTrim s.formData.name) < 2 := Nat.not_lt.mpr hname
  have h3 : ¬ jsLength s.formData.password < 6 := Nat.not_lt.mpr hlong
  have h4 : (s.formData.password = s.formData.confirmPassword) = True := eq_true hconfirm
  cases hcall : register env (jsTrim s.formData.name) (jsTrim s.formData.email)
      s.formData.password s.auth with
  | mk auth r =>
    cases r with
    | error e =>
      left
      simp [Register.submitEvents, Register.handleSubmit, Register.callRegister,
        Register.liftAuth, Register.emit, Eff.tryFinally, Eff.tryCatch, Eff.modify, Eff.read,
        Eff.bind_apply, Eff.andThen, Eff.pure_apply, h1, h2, h3, hemail, hpassword, h4,
        hcall]
    | ok result =>
      cases hsuccess : result.success with
      | false =>
        left
        simp [Register.submitEvents, Register.handleSubmit, Register.callRegister,
          Register.liftAuth, Register.emit, Eff.tryFinally, Eff.tryCatch, Eff.modify, Eff.read,
          Eff.bind_apply, Eff.andThen, Eff.pure_apply, h1, h2, h3, hemail, hpassword, h4,
          hcall, hsuccess]
      | true =>
        right
        simp [Register.submitEvents, Register.handleSubmit, Register.callRegister,
          Register.liftAuth, Register.emit, Eff.tryFinally, Eff.tryCatch, Eff.modify, Eff.read,
          Eff.bind_apply, Eff.andThen, Eff.pure_apply, h1, h2, h3, hemail, hpassword, h4,
          hcall, hsuccess]


/-- C14: `Register.handleSubmit` calls `register` if and only if the trimmed
name has at least 2 characters, the trimmed email is non-empty, the password is
not whitespace-only and has at least 6 characters, and the password equals the
confirmation (characters are counted as `length` counts them, in UTF-16 code
units).  Every call it makes passes the trimmed name, the trimmed email and the
password as typed.  Otherwise it issues no event, changes nothing but `error`,
and sets `error` to the message of the first check that fails, in the order
name present, name length, email, password present, password length,
confirmation. -/
theorem register_handleSubmit_validates (env : AuthEnv) (s : RegisterState) :
    ((∃ name email password,
        RegisterEvent.register name email password ∈ Register.submitEvents env s) ↔
      (2 ≤ jsLength (jsTrim s.formData.name) ∧ jsTrim s.formData.email ≠ "" ∧
        jsTrim s.formData.password ≠ "" ∧ 6 ≤ jsLength s.formData.password ∧
        s.formData.password = s.formData.confirmPassword)) ∧
    (∀ name email password,
      RegisterEvent.register name email password ∈ Register.submitEvents env s →
      name = jsTrim s.formData.name ∧ email = jsTrim s.formData.email ∧
        password = s.formData.password) ∧
    (jsTrim s.formData.name = "" →
      Register.handleSubmit env s
        = ({ s with error := some "Please enter your full name." }, .ok ())) ∧
    (jsTrim s.formData.name ≠ "" → jsLength (jsTrim s.formData.name) < 2 →
      Register.handleSubmit env s
        = ({ s with error := some "Name must be at least 2 characters long." }, .ok ())) ∧
    (2 ≤ jsLength (jsTrim s.formData.name) → jsTrim s.formData.email = "" →
      Register.handleSubmit env s
        = ({ s with error := some "Please enter your email address." }, .ok ())) ∧
    (2 ≤ jsLength (jsTrim s.formData.name) → jsTrim s.formData.email ≠ "" →
      jsTrim s.formData.password = "" →
      Register.handleSubmit env s
        = ({ s with error := some "Please enter a password." }, .ok ())) ∧
    (2 ≤ jsLength (jsTrim s.formData.name) → jsTrim s.formData.email ≠ "" →
      jsTrim s.formData.password ≠ "" → jsLength s.formData.password < 6 →
      Register.handleSubmit env s
        = ({ s with error := some "Password must be at least 6 characters long." }, .ok ())) ∧
    (2 ≤ jsLength (jsTrim s.formData.name) → jsTrim s.formData.email ≠ "" →
      jsTrim s.formData.password ≠ "" → 6 ≤ jsLength s.formData.password →
      s.formData.password ≠ s.formData.confirmPassword →
      Register.handleSubmit env s
        = ({ s with error := some "Passwords do not match." }, .ok ())) := by
  have hmem : ∀ name email password,
      RegisterEvent.register name email password ∈ Register.submitEvents env s →
      (2 ≤ jsLength (jsTrim s.formData.name) ∧ jsTrim s.formData.email ≠ "" ∧
        jsTrim s.formData.password ≠ "" ∧ 6 ≤ jsLength s.formData.password ∧
        s.formData.password = s.formData.confirmPassword) ∧
      name = jsTrim s.formData.name ∧ email = jsTrim s.formData.email ∧
        password = s.formData.password := by
    intro name email password h
    by_cases h0 : jsTrim s.formData.name = ""
    · simp [Register.submitEvents, register_blank_name env s h0] at h
    by_cases h1 : jsLength (jsTrim s.formData.name) < 2
    · simp [Register.submitEvents, register_short_name env s h0 h1] at h
    have hname : 2 ≤ jsLength (jsTrim s.formData.name) := Nat.not_lt.mp h1
    by_cases h2 : jsTrim s.formData.email = ""
    · simp [Register.submitEvents, register_blank_email env s hname h2] at h
    by_cases h3 : jsTrim s.formData.password = ""
    · simp [Register.submitEvents, register_blank_password env s hname h2 h3] at h
    by_cases h4 : jsLength s.formData.password < 6
    · simp [Register.submitEvents, register_short_password env s hname h2 h3 h4] at h
    have hlong : 6 ≤ jsLength s.formData.password := Nat.not_lt.mp h4
    by_cases h5 : s.formData.password = s.formData.confirmPassword
    · refine ⟨⟨hname, h2, h3, hlong, h5⟩, ?_⟩
      rcases register_valid_events env s hname h2 h3 hlong h5 with hev | hev
      · rw [hev] at h
        simpa using h
      · rw [hev] at h
        simpa using h
    · simp [Register.submitEvents, register_password_mismatch env s hname h2 h3 hlong h5] at h
  refine ⟨⟨?_, ?_⟩, fun name email password h => (hmem name email password h).2,
    register_blank_name env s, register_short_name env s, register_blank_email env s,
    register_blank_password env s, register_short_password env s,
    register_password_mismatch env s⟩
  · rintro ⟨name, email, password, h⟩
    exact (hmem name email password h).1
  · rintro ⟨hname, hemail, hpassword, hlong, hconfirm⟩
    refine ⟨jsTrim s.formData.name, jsTrim s.formData.email, s.formData.password, ?_⟩
    rcases register_valid_events env s hname hemail hpassword hlong hconfirm with hev | hev
    · rw [hev]
      simp
    · rw [hev]
      simp


/-! ## Instances at the sample data -/

/-- The statistics example of C1: three posts by two authors with three likes. -/
theorem fetchStats_counts_witness :
    (∀ p ∈ samplePosts, p.likes.isSome ∧ p.author.isSome) ∧
    (fetchStats sampleHomeEnv sampleFeed).1.stats
      = { totalPosts := 3, totalUsers := 2, totalLikes := 3 } :=
  ⟨by decide, by
    rw [fetchStats_counts sampleHomeEnv sampleFeed samplePosts rfl (by decide)]
    decide⟩

/-- An instance of C2: liking `p2` in the sample feed. -/
theorem handleLike_replaces_in_place_witness :
    (∃ p ∈ sampleFeed.posts, p._id = "p2") ∧
    (handleLike sampleHomeEnv "p2" sampleFeed).1.posts.length = 3 :=
  ⟨by decide,
    (handleLike_replaces_in_place sampleHomeEnv sampleFeed "p2" sampleLikedPost
      (by decide) rfl).2.1⟩

/-- The claim C3 fails for an empty message: the posts are kept, but `error` is
set to `Failed to delete post.`, not to the empty message of the server. -/
theorem handleDeletePost_empty_message_counterexample :
    emptyMessageHomeEnv.confirm = true ∧
    emptyMessageHomeEnv.deletePost "p1" = .ok (.failure (some "")) ∧
    (handleDeletePost emptyMessageHomeEnv "p1" sampleFeed).1.error = "Failed to delete post." ∧
    (handleDeletePost emptyMessageHomeEnv "p1" sampleFeed).1.error ≠ "" := by
  decide

/-- An instance of C3 as amended: the server refuses to delete `p1`. -/
theorem handleDeletePost_failure_keeps_posts_witness :
    sampleHomeEnv.confirm = true ∧
    (handleDeletePost sampleHomeEnv "p1" sampleFeed).1.posts = samplePosts ∧
    (handleDeletePost sampleHomeEnv "p1" sampleFeed).1.error = "Not authorized" :=
  ⟨rfl,
    ((handleDeletePost_failure_keeps_posts sampleHomeEnv sampleFeed "p1" rfl).1
      "Not authorized" (by decide) rfl).2,
    congrArg (fun r => r.1.error)
      ((handleDeletePost_failure_keeps_posts sampleHomeEnv sampleFeed "p1" rfl).1
        "Not authorized" (by decide) rfl).1⟩

/-- The two inputs named by C4: an empty title and a title of two blanks, each
with content `x`. -/
theorem handleSubmit_validates_witness :
    submitEvents sampleModalEnv { title := "", content := "x" } = [] ∧
    submitEvents sampleModalEnv { title := "  ", content := "x" } = [] ∧
    (handleSubmit sampleModalEnv { title := "  ", content := "x" }).1.error
      = "Please enter a title for your post." :=
  ⟨((handleSubmit_validates sampleModalEnv { title := "", content := "x" }).2.2.2.2
      (Or.inl (by decide))).1,
    ((handleSubmit_validates sampleModalEnv { title := "  ", content := "x" }).2.2.2.2
      (Or.inl (by decide))).1,
    congrArg (fun r => r.1.error)
      ((handleSubmit_validates sampleModalEnv { title := "  ", content := "x" }).2.2.1
        (by decide))⟩

/-- An instance of C6: a persisted token that the server no longer accepts. -/
theorem checkAuthStatus_terminates_witness :
    (checkAuthStatus refusingAuthEnv sampleSession).1.token = none ∧
    (checkAuthStatus refusingAuthEnv sampleSession).1.user = none :=
  (checkAuthStatus_terminates refusingAuthEnv sampleSession).2.2.2.1 rfl (Or.inl ⟨_, rfl⟩)

/-- An instance of C7: a login that the server accepts. -/
theorem login_register_success_witness :
    (login acceptingAuthEnv "ann@example.com" "secret" {}).1.token = some "tok-2" ∧
    (register acceptingAuthEnv "Ann" "ann@example.com" "secret" {}).1.token = some "tok-3" :=
  ⟨((login_register_success acceptingAuthEnv {} "tok-2" sampleUser).1
      "ann@example.com" "secret" rfl).1,
    ((login_register_success acceptingAuthEnv {} "tok-3" sampleUser).2
      "Ann" "ann@example.com" "secret" rfl).1⟩

/-- The claim C8 fails for an empty message: the result carries `Login failed`,
not the empty message of the server. -/
theorem login_empty_message_counterexample :
    emptyMessageAuthEnv.postLogin "ann@example.com" "secret" = .ok (.failure (some "")) ∧
    (login emptyMessageAuthEnv "ann@example.com" "secret" {}).2
      = .ok { success := false, message := some "Login failed" } ∧
    (login emptyMessageAuthEnv "ann@example.com" "secret" {}).2
      ≠ .ok { success := false, message := some "" } := by
  decide

/-- An instance of C8 as amended: the message `Invalid credentials`. -/
theorem login_register_failure_message_witness :
    "Invalid credentials" ≠ "" ∧
    (login refusingAuthEnv "ann@example.com" "wrong" {}).2
      = .ok { success := false, message := some "Invalid credentials" } :=
  ⟨by decide,
    ((login_register_failure_message refusingAuthEnv {} "Invalid credentials" (by decide)).1
      "ann@example.com" "wrong" rfl).1⟩

/-- The claim C9 fails for a session that has a user: after a login call that
throws, the user is still there. -/
theorem login_throw_counterexample :
    unreachableAuthEnv.postLogin "ann@example.com" "secret" = .error ⟨"Network Error", none⟩ ∧
    (login unreachableAuthEnv "ann@example.com" "secret" sampleSession).1.user
      = some sampleUser ∧
    (login unreachableAuthEnv "ann@example.com" "secret" sampleSession).1.user ≠ none := by
  decide

/-- An instance of C9 as amended: a login without network in a fresh session. -/
theorem login_throw_keeps_session_witness :
    unreachableAuthEnv.postLogin "ann@example.com" "secret" = .error ⟨"Network Error", none⟩ ∧
    (login unreachableAuthEnv "ann@example.com" "secret" {}).1.user = none :=
  ⟨rfl,
    (login_throw_keeps_session unreachableAuthEnv {} "ann@example.com" "secret"
      ⟨"Network Error", none⟩ rfl).2.2.2 rfl⟩

/-- An instance of C10: a refused profile update keeps the user and the token. -/
theorem updateProfile_frame_witness :
    (updateProfile refusingAuthEnv "Ann B" "hello" sampleSession).1.user = some sampleUser ∧
    (updateProfile refusingAuthEnv "Ann B" "hello" sampleSession).1.token = some "tok-1" :=
  ((updateProfile_frame refusingAuthEnv sampleSession "Ann B" "hello").2.1 _ rfl).2

/-- An instance of C11: the server of `deletingHomeEnv` deletes `p2`. -/
theorem handleDeletePost_success_removes_witness :
    deletingHomeEnv.confirm = true ∧
    (∀ p ∈ (handleDeletePost deletingHomeEnv "p2" sampleFeed).1.posts, p._id ≠ "p2") ∧
    (handleDeletePost deletingHomeEnv "p2" sampleFeed).1.posts.Sublist samplePosts :=
  ⟨rfl,
    (handleDeletePost_success_removes deletingHomeEnv sampleFeed "p2" rfl rfl).2.1,
    (handleDeletePost_success_removes deletingHomeEnv sampleFeed "p2" rfl rfl).2.2.2.2⟩

/-- An instance of C12: the form is submitted with title and content between
blanks, the server stores the post and answers success, and the sample feed then
holds the stored post in front of its three posts. -/
theorem handlePostCreated_prepends_witness :
    sampleModalEnv.postPosts "Fourth" "four" = .ok (.success sampleCreatedPost) ∧
    submitEvents sampleModalEnv { title := " Fourth ", content := " four " }
      = [.apiPost "Fourth" "four", .onClose, .onPostCreated sampleCreatedPost] ∧
    (onModalEvents sampleHomeEnv
        (submitEvents sampleModalEnv { title := " Fourth ", content := " four " })
        sampleFeed).1.posts
      = sampleCreatedPost :: samplePosts ∧
    (handlePostCreated sampleHomeEnv sampleCreatedPost sampleFeed).1.posts
      = sampleCreatedPost :: samplePosts :=
  ⟨by decide,
    ((handlePostCreated_prepends sampleHomeEnv sampleFeed sampleCreatedPost).2.2.2.2.2.1
      sampleModalEnv { title := " Fourth ", content := " four " }
      (by decide) (by decide) (by decide)).1,
    ((handlePostCreated_prepends sampleHomeEnv sampleFeed sampleCreatedPost).2.2.2.2.2.1
      sampleModalEnv { title := " Fourth ", content := " four " }
      (by decide) (by decide) (by decide)).2.2.1,
    (handlePostCreated_prepends sampleHomeEnv sampleFeed sampleCreatedPost).2.1⟩

/-- The claim C13 fails for a server that returns a post whose id is already in
the list: the ids of the sample feed are pairwise distinct, and neither after
`handlePostCreated` with a post of id `p2` nor after a like of `p1` answered
with a post of id `p2` are they so. -/
theorem feed_ids_counterexample :
    (sampleFeed.posts.map fun post => post._id).Nodup ∧
    sampleHomeEnv.putLike "p1" = .ok (.success sampleLikedPost) ∧
    ((handlePostCreated sampleHomeEnv sampleLikedPost sampleFeed).1.posts.map
        fun post => post._id) = ["p2", "p1", "p2", "p3"] ∧
    ¬ ((handlePostCreated sampleHomeEnv sampleLikedPost sampleFeed).1.posts.map
        fun post => post._id).Nodup ∧
    ((handleLike sampleHomeEnv "p1" sampleFeed).1.posts.map fun post => post._id)
      = ["p2", "p2", "p3"] ∧
    ¬ ((handleLike sampleHomeEnv "p1" sampleFeed).1.posts.map fun post => post._id).Nodup := by
  decide

/-- An instance of C13 as amended: a like of `p2` answered with a post of id
`p2`. -/
theorem feed_ids_stay_distinct_witness :
    (sampleFeed.posts.map fun post => post._id).Nodup ∧
    ((handleLike sampleHomeEnv "p2" sampleFeed).1.posts.map fun post => post._id).Nodup :=
  ⟨by decide,
    (feed_ids_stay_distinct sampleHomeEnv sampleFeed (by decide)).2.1 "p2" sampleLikedPost rfl
      (Or.inl rfl)⟩

/-- Instances of C14: a name of one letter between blanks is refused, and a
valid form calls `register` with the trimmed name, the trimmed email and the
password as typed. -/
theorem register_handleSubmit_validates_witness :
    (Register.handleSubmit acceptingAuthEnv { formData := sampleShortNameForm }).1.error
      = some "Name must be at least 2 characters long." ∧
    (∃ name email password, RegisterEvent.register name email password
      ∈ Register.submitEvents acceptingAuthEnv { formData := sampleForm }) :=
  ⟨congrArg (fun r => r.1.error)
      ((register_handleSubmit_validates acceptingAuthEnv
        { formData := sampleShortNameForm }).2.2.2.1 (by decide) (by decide)),
    (register_handleSubmit_validates acceptingAuthEnv { formData := sampleForm }).1.mpr
      (by decide)⟩


end MiniLinkedin
